import Mathlib

/-!
Verification development for the BGP dashboard (`flask/app/hello.py`).

The Python source is shallowly embedded: the Mongo route table becomes a
`List RouteEntry` (or, for the resolver, an abstract lookup oracle that may
error, modelling a failing document store), DNS becomes an oracle
`String → Except Unit (List String)`, IP addresses become naturals tagged
with their family, and prefix strings become the structured key `Pfx`
(network address, mask length, family) — `ipaddress` formats a supernet
deterministically, so byte-exact string lookup is exact `Pfx` lookup.
Python exceptions caught by the source's blanket `except:` handlers become
explicit `none` / `Except.error` branches at the very places the source
can raise.
-/

/-- The default sentinel ASN (`_DEFAULT_ASN = 3701` in the source). -/
def _DEFAULT_ASN : Nat := 3701

/-- The customer marker community (`_CUSTOMER_BGP_COMMUNITY` in the source). -/
def _CUSTOMER_BGP_COMMUNITY : String := "3701:370"

/-- A stored prefix key: network address (as a natural), mask length and IP
version.  Stands for the canonical prefix string `"a.b.c.d/len"` used as the
exact-match key in the Mongo collection. -/
structure Pfx where
  addr : Nat
  len : Nat
  ver : Nat
deriving DecidableEq, Repr

/-- A parsed IP address (`ipaddress.ip_address` result): family tag plus the
numeric address. -/
inductive IPAddr where
  | v4 (a : Nat)
  | v6 (a : Nat)
deriving DecidableEq, Repr

/-- One document of the `bgp` collection (a route-table entry). -/
structure RouteEntry where
  pfx : Pfx
  ip_version : Nat
  origin_as : Option Nat
  next_hop_asn : Option Nat
  nexthop : String
  as_path : Option (List Nat)
  communities : List String
  med : Int
  local_pref : Int
  timestamp : Nat
deriving DecidableEq, Repr

/-- `ipaddress.ip_network(ip).supernet(new_prefix=m)` for an IPv4 address
`a`: zero the low `32 - m` bits.  Meaningful for `m ≤ 32`. -/
def supernetV4 (a m : Nat) : Pfx :=
  ⟨a / 2 ^ (32 - m) * 2 ^ (32 - m), m, 4⟩

/-- `ipaddress.ip_network(ip).supernet(new_prefix=m)` for an IPv6 address
`a`: zero the low `128 - m` bits.  Meaningful for `m ≤ 128`. -/
def supernetV6 (a m : Nat) : Pfx :=
  ⟨a / 2 ^ (128 - m) * 2 ^ (128 - m), m, 6⟩

/-- `find_network(ip, netmask)` from the source.  `ip` is the parse result of
the input string (`none` when `ipaddress.ip_address` raises — the blanket
`except:` turns that into `None`).  `lookup` is `db.bgp.find_one` keyed by
the computed prefix string; `Except.error` models a raising document store,
which the same `except:` also turns into `None`.  For IPv4 the probed prefix
length is `netmask`; for IPv6 it is `netmask + 32`.  A `supernet` call with a
prefix shorter than requested raises, hence the out-of-range guards. -/
def find_network (lookup : Pfx → Except Unit (Option RouteEntry))
    (ip : Option IPAddr) : Nat → Option RouteEntry
  | netmask =>
    match ip with
    | none => none
    | some (.v4 a) =>
      if 32 < netmask then none
      else
        match lookup (supernetV4 a netmask) with
        | .error _ => none
        | .ok (some r) => some r
        | .ok none =>
          if h : netmask = 0 then none
          else find_network lookup (some (.v4 a)) (netmask - 1)
    | some (.v6 a) =>
      if 128 < netmask + 32 then none
      else
        match lookup (supernetV6 a (netmask + 32)) with
        | .error _ => none
        | .ok (some r) => some r
        | .ok none =>
          if h : netmask = 0 then none
          else find_network lookup (some (.v6 a)) (netmask - 1)
termination_by netmask => netmask
decreasing_by all_goals omega

/-- Scan a list of candidate prefixes in order, returning the first hit;
an erroring lookup aborts the whole scan with `none` (the source's
`except: return(None)` aborts the recursion, it does not skip a step). -/
def first_hit (lookup : Pfx → Except Unit (Option RouteEntry)) :
    List Pfx → Option RouteEntry
  | [] => none
  | p :: ps =>
    match lookup p with
    | .error _ => none
    | .ok (some r) => some r
    | .ok none => first_hit lookup ps

/-- The sequence of prefixes `find_network` probes for a parsed address when
started at internal mask `netmask`: masks `netmask, netmask-1, …, 0`, offset
by `+32` for IPv6. -/
def probe_seq (ip : IPAddr) (netmask : Nat) : List Pfx :=
  match ip with
  | .v4 a => ((List.range (netmask + 1)).reverse).map (supernetV4 a)
  | .v6 a => ((List.range (netmask + 1)).reverse).map (fun m => supernetV6 a (m + 32))

/-- The resolver the spec describes, stated in the spec's own words: probe
from the maximum mask length for the family — 32 for IPv4, 128 for IPv6 —
one mask length at a time down to 0, returning the first exact hit. -/
def resolve_claimed (lookup : Pfx → Except Unit (Option RouteEntry))
    (ip : IPAddr) : Option RouteEntry :=
  match ip with
  | .v4 a => first_hit lookup (((List.range 33).reverse).map (supernetV4 a))
  | .v6 a => first_hit lookup (((List.range 129).reverse).map (supernetV6 a))

/-- Number of document-store lookups `find_network` performs (one per probed
mask length until a hit, an error, or mask 0). -/
def probe_count (lookup : Pfx → Except Unit (Option RouteEntry))
    (ip : Option IPAddr) : Nat → Nat
  | netmask =>
    match ip with
    | none => 0
    | some (.v4 a) =>
      if 32 < netmask then 0
      else
        match lookup (supernetV4 a netmask) with
        | .error _ => 1
        | .ok (some _) => 1
        | .ok none =>
          if h : netmask = 0 then 1
          else 1 + probe_count lookup (some (.v4 a)) (netmask - 1)
    | some (.v6 a) =>
      if 128 < netmask + 32 then 0
      else
        match lookup (supernetV6 a (netmask + 32)) with
        | .error _ => 1
        | .ok (some _) => 1
        | .ok none =>
          if h : netmask = 0 then 1
          else 1 + probe_count lookup (some (.v6 a)) (netmask - 1)
termination_by netmask => netmask
decreasing_by all_goals omega

/-- `str(rdata).split('|')[-1].split(',', 2)[0].strip()` — extract the name
from a Team Cymru TXT record: last pipe-delimited field, first comma
segment, trimmed. -/
def parse_rdata (s : String) : String :=
  ((((s.splitOn "|").getLast!).splitOn ",").head!).trim

/-- `asn_name_query(asn)` from the source.  `dns` is the external resolver
(`resolver.query(q, 'TXT')` returning the answer list); `Except.error`
models a raising lookup, caught by the source's `except:` into the
`"(DNS Error)"` sentinel.  When the answer list is empty the `for` loop body
never runs and the Python function falls off the end, returning `None` —
hence the result type `Option String` with `none` for that path. -/
def asn_name_query (dns : String → Except Unit (List String))
    (asn : Option Nat) : Option String :=
  let a := asn.getD _DEFAULT_ASN
  if 64512 ≤ a ∧ a ≤ 65534 then
    some "RFC6996 - Private Use ASN"
  else
    match dns ("as" ++ toString a ++ ".asn.cymru.com") with
    | .error _ => some "(DNS Error)"
    | .ok [] => none
    | .ok (r :: _) => some (parse_rdata r)

/-- Does character list `p` occur as a contiguous sublist of `s`?  This is
what Mongo's `{'$regex': comm}` computes for a community string with no
regex metacharacters (the `a:b` community syntax has none). -/
def hasSubList (p : List Char) : List Char → Bool
  | [] => p.isEmpty
  | c :: s => p.isPrefixOf (c :: s) || hasSubList p s

/-- All distinct community strings across the table, in first-encounter
order (`db.bgp.distinct('communities')` over the array-valued field). -/
def distinct_communities (table : List RouteEntry) : List String :=
  (table.foldl (fun acc e => acc ++ e.communities) []).dedup

/-- `communities_count()` from the source: for each distinct community,
the number of documents whose `communities` array has an element matching
the regex `comm`, i.e. containing `comm` as a substring. -/
def communities_count (table : List RouteEntry) : List (String × Nat) :=
  (distinct_communities table).map fun comm =>
    (comm, (table.filter fun e =>
      e.communities.any fun c => hasSubList comm.toList c.toList).length)

/-- `round(x, 3)` idealised over ℚ: round to the nearest thousandth. -/
def round3 (q : ℚ) : ℚ := (round (q * 1000) : ℤ) / 1000

/-- `len(set(prefix['as_path']))` guarded by the per-entry `try`/`except`:
the number of distinct ASNs on the path, or 0 when `as_path` is missing
(the `KeyError` is swallowed by `pass`). -/
def as_path_weight (e : RouteEntry) : Nat :=
  match e.as_path with
  | some l => l.dedup.length
  | none => 0

/-- `avg_as_path_length()` from the source.  The accumulated distinct-ASN
count is divided by the document count with no zero guard — the loop's
`except: pass` does not cover the final division, so an empty table raises
`ZeroDivisionError`, modelled as `none`. -/
def avg_as_path_length (table : List RouteEntry) : Option ℚ :=
  let as_path_counter := table.foldl (fun acc e => acc + as_path_weight e) 0
  if table.length = 0 then none
  else some (round3 ((as_path_counter : ℚ) / (table.length : ℚ)))

/-- `peer_count()`: `len(db.bgp.distinct('next_hop_asn'))`.  Distinct keeps a
null value (an unknown peer) as one value, modelled by `Option Nat`. -/
def peer_count (table : List RouteEntry) : Nat :=
  ((table.map (·.next_hop_asn)).dedup).length

/-- `prefix_count(version)`: number of documents with the given
`ip_version`. -/
def prefix_count (version : Nat) (table : List RouteEntry) : Nat :=
  (table.filter fun e => e.ip_version = version).length

/-- `nexthop_ip_count()`: `len(db.bgp.distinct('nexthop'))`. -/
def nexthop_ip_count (table : List RouteEntry) : Nat :=
  ((table.map (·.nexthop)).dedup).length

/-- One `{asn, name, ipv4_count, ipv6_count}` row of the `peers()` /
`customers()` output. -/
structure PeerRow where
  asn : Nat
  name : Option String
  ipv4_count : Nat
  ipv6_count : Nat
deriving DecidableEq, Repr

/-- The loop body shared by `peers()` and `customers()`: count the ASN's
IPv4 and IPv6 documents over the whole table (with the original, possibly
null, ASN), then map a null ASN to `_DEFAULT_ASN` and resolve its name. -/
def peer_row (dns : String → Except Unit (List String))
    (table : List RouteEntry) (asn : Option Nat) : PeerRow :=
  let ipv4_count := (table.filter fun e =>
    e.next_hop_asn = asn ∧ e.ip_version = 4).length
  let ipv6_count := (table.filter fun e =>
    e.next_hop_asn = asn ∧ e.ip_version = 6).length
  let a := asn.getD _DEFAULT_ASN
  ⟨a, asn_name_query dns (some a), ipv4_count, ipv6_count⟩

/-- `peers()`: one row per distinct `next_hop_asn` over the full table. -/
def peers (dns : String → Except Unit (List String))
    (table : List RouteEntry) : List PeerRow :=
  ((table.map (·.next_hop_asn)).dedup).map (peer_row dns table)

/-- `customers()`: rows for the distinct `next_hop_asn` of documents tagged
with the customer community (exact array membership), plus grand totals of
their IPv4 and IPv6 counts. -/
def customers (dns : String → Except Unit (List String))
    (table : List RouteEntry) : List PeerRow × Nat × Nat :=
  let clist := table.filter fun e =>
    e.communities.contains _CUSTOMER_BGP_COMMUNITY
  let rows := ((clist.map (·.next_hop_asn)).dedup).map (peer_row dns table)
  (rows, (rows.map (·.ipv4_count)).sum, (rows.map (·.ipv6_count)).sum)

/-- One `{asn, count, name}` row of `top_peers(count)`; the `asn` field is
published unmapped, so it may be null. -/
structure TopPeerRow where
  asn : Option Nat
  count : Nat
  name : Option String
deriving DecidableEq, Repr

/-- Insert a pair into a count-descending list, after every element whose
count is at least as large (so insertion keeps the original order of
ties). -/
def insertDesc (x : Option Nat × Nat) :
    List (Option Nat × Nat) → List (Option Nat × Nat)
  | [] => [x]
  | y :: ys => if y.2 < x.2 then x :: y :: ys else y :: insertDesc x ys

/-- Stable sort by count descending: Python's `sorted(…, key=count,
reverse=True)` is specified as a stable sort, and any stable sort by the
same key equals this insertion sort. -/
def sortDescByCount (l : List (Option Nat × Nat)) :
    List (Option Nat × Nat) :=
  l.foldl (fun acc x => insertDesc x acc) []

/-- `top_peers(count)`: per-ASN document counts, sorted stably by count
descending (Python's stable `sorted` with `reverse=True` over the dict's
insertion order), truncated to `n`, names attached. -/
def top_peers (dns : String → Except Unit (List String)) (n : Nat)
    (table : List RouteEntry) : List TopPeerRow :=
  let pairs := ((table.map (·.next_hop_asn)).dedup).map fun k =>
    (k, (table.filter fun e => e.next_hop_asn = k).length)
  ((sortDescByCount pairs).take n).map fun p =>
    ⟨p.1, p.2, asn_name_query dns p.1⟩

/-- One `{mask, count, ip_version}` row of `cidr_breakdown()`. -/
structure CidrRow where
  mask : Nat
  count : Nat
  ip_version : Nat
deriving DecidableEq, Repr

/-- `collections.Counter(l).items()`: first-occurrence order with
multiplicities. -/
def counter_items (l : List Nat) : List (Nat × Nat) :=
  l.dedup.map fun m => (m, l.count m)

/-- `cidr_breakdown()`.  A v4 document with mask `> 24` and a null
`origin_as` makes the dead-code `bads_list` line call `int(None)`, raising
`TypeError` out of the function — modelled as `none`. -/
def cidr_breakdown (table : List RouteEntry) : Option (List CidrRow) :=
  if table.any fun e =>
      e.ip_version = 4 ∧ 24 < e.pfx.len ∧ e.origin_as = none then none
  else
    let ipv4_list := (table.filter fun e => e.ip_version = 4).map (·.pfx.len)
    let ipv6_list := (table.filter fun e => e.ip_version = 6).map (·.pfx.len)
    some ((counter_items ipv4_list).map (fun mc => ⟨mc.1, mc.2, 4⟩)
      ++ (counter_items ipv6_list).map (fun mc => ⟨mc.1, mc.2, 6⟩))

/-- The mutable `Stats` object: one field per attribute set in
`Stats.__init__`. -/
structure Stats where
  peer_counter : Nat
  ipv4_table_size : Nat
  ipv6_table_size : Nat
  nexthop_ip_counter : Nat
  avg_as_path_length : ℚ
  top_n_peers : Option (List TopPeerRow)
  cidr_breakdown : Option (List CidrRow)
  communities : Option (List (String × Nat))
  peers : Option (List PeerRow)
  customers : Option (List PeerRow)
  customer_count : Nat
  customer_ipv4_prefixes : Nat
  customer_ipv6_prefixes : Nat
  timestamp : String
deriving DecidableEq, Repr

/-- `Stats.__init__`: zero counters, `None` lists, creation timestamp.
`fmt` models `epoch_to_date` (an external `strftime` formatting of the
clock reading `now`). -/
def Stats.init (fmt : Nat → String) (now : Nat) : Stats :=
  ⟨0, 0, 0, 0, 0, none, none, none, none, none, 0, 0, 0, fmt now⟩

/-- `Stats.get_data` (and the body of `get_json`) publishes a dict with one
key per attribute, a field-for-field copy of the object — so the published
snapshot is modelled as the `Stats` value itself. -/
def Stats.get_data (s : Stats) : Stats := s

/-- `Stats.update_stats` run to completion: the eight attribute assignments
of the source, in order.  `now` is the clock reading taken at the
`epoch_to_date(time.time())` line. -/
def update_stats (dns : String → Except Unit (List String))
    (fmt : Nat → String) (table : List RouteEntry) (now : Nat)
    (s : Stats) : Stats :=
  { s with
    peer_counter := peer_count table
    ipv4_table_size := prefix_count 4 table
    ipv6_table_size := prefix_count 6 table
    nexthop_ip_counter := nexthop_ip_count table
    timestamp := fmt now
    customer_count := (customers dns table).1.length
    customer_ipv4_prefixes := (customers dns table).2.1
    customer_ipv6_prefixes := (customers dns table).2.2 }

/-- `Stats.update_stats` as its sequence of eight single-attribute
assignments, in source order.  Each Python attribute store is atomic under
the interpreter lock, but nothing makes the sequence atomic: a concurrent
reader can run between any two of these. -/
def update_stats_steps (dns : String → Except Unit (List String))
    (fmt : Nat → String) (table : List RouteEntry) (now : Nat) :
    List (Stats → Stats) :=
  [ fun s => { s with peer_counter := peer_count table },
    fun s => { s with ipv4_table_size := prefix_count 4 table },
    fun s => { s with ipv6_table_size := prefix_count 6 table },
    fun s => { s with nexthop_ip_counter := nexthop_ip_count table },
    fun s => { s with timestamp := fmt now },
    fun s => { s with customer_count := (customers dns table).1.length },
    fun s => { s with customer_ipv4_prefixes := (customers dns table).2.1 },
    fun s => { s with customer_ipv6_prefixes := (customers dns table).2.2 } ]

/-- Apply a list of assignment steps from left to right. -/
def run_steps (steps : List (Stats → Stats)) (s : Stats) : Stats :=
  steps.foldl (fun st f => f st) s

/-- The state a concurrent reader observes after the first `k` assignments
of an `update_stats` run have landed. -/
def observe_after (dns : String → Except Unit (List String))
    (fmt : Nat → String) (table : List RouteEntry) (now : Nat) (k : Nat)
    (s : Stats) : Stats :=
  run_steps ((update_stats_steps dns fmt table now).take k) s

/-- `Stats.update_advanced_stats` run to completion.  `avg_as_path_length()`
raises on an empty table and `cidr_breakdown()` raises on a long null-origin
v4 document; either way the run dies without publishing a complete snapshot,
modelled as `none` (the fields already assigned before the crash are not
modelled here — only complete runs publish). -/
def update_advanced_stats (dns : String → Except Unit (List String))
    (fmt : Nat → String) (table : List RouteEntry) (now : Nat)
    (s : Stats) : Option Stats :=
  match avg_as_path_length table with
  | none => none
  | some q =>
    match cidr_breakdown table with
    | none => none
    | some rows =>
      some { s with
        avg_as_path_length := q
        top_n_peers := some (top_peers dns 5 table)
        cidr_breakdown := some rows
        peers := some (peers dns table)
        customers := some (customers dns table).1
        communities := some (communities_count table)
        timestamp := fmt now }

/-- A concrete route entry for test tables (med 0, local_pref 100,
timestamp 0). -/
def mkEntry (p : Pfx) (ver : Nat) (orig nha : Option Nat) (nh : String)
    (ap : Option (List Nat)) (comms : List String) : RouteEntry :=
  ⟨p, ver, orig, nha, nh, ap, comms, 0, 100, 0⟩

/-- An exact-match oracle over a one-entry table. -/
def oneEntryLookup (e : RouteEntry) : Pfx → Except Unit (Option RouteEntry) :=
  fun p => Except.ok (if p = e.pfx then some e else none)

/-- The spec's reading of an entry's path weight: the number of distinct AS
numbers on the path (a `Finset` cardinality), 0 when `as_path` is absent. -/
def distinct_as_count (e : RouteEntry) : Nat :=
  match e.as_path with
  | some l => l.toFinset.card
  | none => 0

theorem find_network_eq_probes_v4 (lookup : Pfx → Except Unit (Option RouteEntry))
    (a : Nat) : ∀ m, m ≤ 32 →
    find_network lookup (some (.v4 a)) m
      = first_hit lookup (((List.range (m + 1)).reverse).map (supernetV4 a)) := by
  intro m
  induction m with
  | zero =>
    intro _
    rw [find_network]
    simp only [show List.range 1 = [0] from rfl, List.reverse_cons,
      List.reverse_nil, List.nil_append, List.map_cons, List.map_nil, first_hit]
    cases h : lookup (supernetV4 a 0) with
    | error e => simp [first_hit, h]
    | ok o => cases o <;> simp [first_hit, h]
  | succ k ih =>
    intro h
    rw [find_network]
    rw [List.range_succ, List.reverse_append, List.reverse_singleton,
      List.singleton_append, List.map_cons]
    simp only [show ¬ (32 < k + 1) from by omega, if_false]
    cases hl : lookup (supernetV4 a (k + 1)) with
    | error e => simp [first_hit, hl]
    | ok o =>
      cases o with
      | some r => simp [first_hit, hl]
      | none =>
        simp only [first_hit, hl]
        simpa using ih (by omega)

theorem find_network_eq_probes_v6 (lookup : Pfx → Except Unit (Option RouteEntry))
    (a : Nat) : ∀ m, m ≤ 96 →
    find_network lookup (some (.v6 a)) m
      = first_hit lookup (((List.range (m + 1)).reverse).map
          (fun k => supernetV6 a (k + 32))) := by
  intro m
  induction m with
  | zero =>
    intro _
    rw [find_network]
    simp only [show List.range 1 = [0] from rfl, List.reverse_cons,
      List.reverse_nil, List.nil_append, List.map_cons, List.map_nil, first_hit]
    cases h : lookup (supernetV6 a 32) with
    | error e => simp [first_hit, h]
    | ok o => cases o <;> simp [first_hit, h]
  | succ k ih =>
    intro h
    rw [find_network]
    rw [List.range_succ, List.reverse_append, List.reverse_singleton,
      List.singleton_append, List.map_cons]
    simp only [show ¬ (128 < k + 1 + 32) from by omega, if_false]
    cases hl : lookup (supernetV6 a (k + 1 + 32)) with
    | error e => simp [first_hit, hl]
    | ok o =>
      cases o with
      | some r => simp [first_hit, hl]
      | none =>
        simp only [first_hit, hl]
        simpa using ih (by omega)

theorem first_hit_error_of_reached (lookup : Pfx → Except Unit (Option RouteEntry)) :
    ∀ (ps1 : List Pfx) (p : Pfx) (ps2 : List Pfx),
    (∀ q ∈ ps1, lookup q = Except.ok none) →
    lookup p = Except.error () →
    first_hit lookup (ps1 ++ p :: ps2) = none := by
  intro ps1
  induction ps1 with
  | nil =>
    intro p ps2 _ hp
    simp [first_hit, hp]
  | cons q qs ih =>
    intro p ps2 hall hp
    have hq : lookup q = Except.ok none := hall q (by simp)
    simp only [List.cons_append, first_hit, hq]
    exact ih p ps2 (fun r hr => hall r (by simp [hr])) hp

theorem probe_count_le (lookup : Pfx → Except Unit (Option RouteEntry)) :
    ∀ (n : Nat) (ip : Option IPAddr), probe_count lookup ip n ≤ n + 1 := by
  intro n
  induction n with
  | zero =>
    intro ip
    rcases ip with _ | a | a
    · simp [probe_count]
    · rw [probe_count]
      simp only [show ¬ (32 < 0) from by omega, if_false]
      cases h : lookup (supernetV4 a 0) with
      | error e => simp [h]
      | ok o => cases o <;> simp [h]
    · rw [probe_count]
      simp only [show ¬ (128 < 0 + 32) from by omega, if_false]
      cases h : lookup (supernetV6 a (0 + 32)) with
      | error e => simp [h]
      | ok o => cases o <;> simp [h]
  | succ k ih =>
    intro ip
    rcases ip with _ | a | a
    · simp [probe_count]
    · rw [probe_count]
      by_cases h32 : 32 < k + 1
      · simp [h32]
      · simp only [h32, if_false]
        cases h : lookup (supernetV4 a (k + 1)) with
        | error e => simp [h]
        | ok o =>
          cases o with
          | some r => simp [h]
          | none =>
            simp only [h]
            rw [dif_neg (by omega)]
            have := ih (some (.v4 a))
            simp only [Nat.add_sub_cancel]
            omega
    · rw [probe_count]
      by_cases h32 : 128 < k + 1 + 32
      · simp [h32]
      · simp only [h32, if_false]
        cases h : lookup (supernetV6 a (k + 1 + 32)) with
        | error e => simp [h]
        | ok o =>
          cases o with
          | some r => simp [h]
          | none =>
            simp only [h]
            rw [dif_neg (by omega)]
            have := ih (some (.v6 a))
            simp only [Nat.add_sub_cancel]
            omega

/-- C1 fails on the code for IPv6: the claimed probe order starts at the
family maximum (128), but `find_network` starts at internal mask 32, i.e.
prefix length 64.  Concretely, with exactly one stored entry at the /128
covering the queried address, the spec's resolver finds it while
`find_network` (entered with `netmask=32` as at every call site) returns
`NotFound`. -/
theorem find_network_v6_missed_128_counterexample :
    find_network
        (oneEntryLookup (mkEntry ⟨5, 128, 6⟩ 6 (some 1) (some 2) "fe80::5"
          (some [1]) []))
        (some (.v6 5)) 32 = none
    ∧ resolve_claimed
        (oneEntryLookup (mkEntry ⟨5, 128, 6⟩ 6 (some 1) (some 2) "fe80::5"
          (some [1]) []))
        (.v6 5)
      = some (mkEntry ⟨5, 128, 6⟩ 6 (some 1) (some 2) "fe80::5"
          (some [1]) []) := by
  constructor
  · rw [find_network_eq_probes_v6
      (oneEntryLookup (mkEntry ⟨5, 128, 6⟩ 6 (some 1) (some 2) "fe80::5"
        (some [1]) [])) 5 32 (by omega)]
    decide
  · decide

/-- C1 (amended): entered with `netmask = 32` (as at every call site),
`find_network` probes one mask length at a time, returning the first entry
found by exact prefix lookup and `NotFound` after the mask-0 probe misses;
for IPv4 the probed prefix lengths run 32, 31, …, 0, but for IPv6 the
internal mask is offset by +32, so the probed prefix lengths run 64, 63, …,
32 — not 128 down to 0. -/
theorem find_network_probe_order (lookup : Pfx → Except Unit (Option RouteEntry))
    (a : Nat) :
    find_network lookup (some (.v4 a)) 32 = first_hit lookup (probe_seq (.v4 a) 32)
    ∧ find_network lookup (some (.v6 a)) 32 = first_hit lookup (probe_seq (.v6 a) 32)
    ∧ (probe_seq (.v4 a) 32).map Pfx.len = (List.range 33).reverse
    ∧ (probe_seq (.v6 a) 32).map Pfx.len = ((List.range 33).reverse).map (· + 32) := by
  refine ⟨find_network_eq_probes_v4 lookup a 32 (by omega),
          find_network_eq_probes_v6 lookup a 32 (by omega), ?_, ?_⟩
  · simp [probe_seq, List.map_map, Function.comp_def, supernetV4]
  · simp [probe_seq, List.map_map, Function.comp_def, supernetV6]

/-- C2: `find_network` returns `NotFound` instead of propagating an error,
both when the input string fails to parse as an IP address and when a
reached document-store lookup raises (the blanket `except:` aborts the
whole search with `None` at that point). -/
theorem find_network_error_swallowing (lookup : Pfx → Except Unit (Option RouteEntry))
    (n : Nat) :
    find_network lookup none n = none
    ∧ (∀ (ip : IPAddr) (ps1 : List Pfx) (p : Pfx) (ps2 : List Pfx),
        probe_seq ip 32 = ps1 ++ p :: ps2 →
        (∀ q ∈ ps1, lookup q = Except.ok none) →
        lookup p = Except.error () →
        find_network lookup (some ip) 32 = none) := by
  constructor
  · rw [find_network]
  · intro ip ps1 p ps2 hseq hall hp
    cases ip with
    | v4 a =>
      rw [find_network_eq_probes_v4 lookup a 32 (by omega)]
      rw [show ((List.range (32 + 1)).reverse).map (supernetV4 a)
            = probe_seq (.v4 a) 32 from rfl, hseq]
      exact first_hit_error_of_reached lookup ps1 p ps2 hall hp
    | v6 a =>
      rw [find_network_eq_probes_v6 lookup a 32 (by omega)]
      rw [show ((List.range (32 + 1)).reverse).map (fun k => supernetV6 a (k + 32))
            = probe_seq (.v6 a) 32 from rfl, hseq]
      exact first_hit_error_of_reached lookup ps1 p ps2 hall hp

/-- Witness for C2: an unparseable input resolves to `NotFound`, and so does
a query against a store that raises on the very first probe. -/
theorem find_network_error_swallowing_witness :
    find_network (fun _ => Except.error ()) none 32 = none
    ∧ find_network (fun _ => Except.error ()) (some (.v4 0)) 32 = none := by
  refine ⟨(find_network_error_swallowing (fun _ => Except.error ()) 32).1, ?_⟩
  exact (find_network_error_swallowing (fun _ => Except.error ()) 32).2 (.v4 0) []
    (supernetV4 0 32) (((List.range 32).reverse).map (supernetV4 0))
    (by decide) (by simp) rfl

/-- C3: `find_network` terminates — the internal mask strictly decreases to
the explicit mask-0 stop — and, entered with `netmask = 32` as at every call
site, performs at most 33 document-store probes for IPv4 and (a fortiori
within the claimed 129) at most 33 for IPv6; in general at most
`netmask + 1` probes. -/
theorem find_network_terminates_probe_bound
    (lookup : Pfx → Except Unit (Option RouteEntry)) (a : Nat) :
    probe_count lookup (some (.v4 a)) 32 ≤ 33
    ∧ probe_count lookup (some (.v6 a)) 32 ≤ 129
    ∧ ∀ (ip : Option IPAddr) (n : Nat), probe_count lookup ip n ≤ n + 1 := by
  refine ⟨probe_count_le lookup 32 _,
          le_trans (probe_count_le lookup 32 _) (by omega),
          fun ip n => probe_count_le lookup n ip⟩

/-- C4: for every ASN in [64512, 65534], `asn_name_query` returns the fixed
private-use label; the result is the same for every DNS oracle `dns`, i.e.
the external lookup service is never consulted. -/
theorem asn_name_query_private_range (dns : String → Except Unit (List String))
    (asn : Nat) (h1 : 64512 ≤ asn) (h2 : asn ≤ 65534) :
    asn_name_query dns (some asn) = some "RFC6996 - Private Use ASN" := by
  simp [asn_name_query, h1, h2]

/-- Witness for C4 at ASN 65000 with a DNS oracle that always raises. -/
theorem asn_name_query_private_range_witness :
    (64512 ≤ 65000 ∧ 65000 ≤ 65534)
    ∧ asn_name_query (fun _ => Except.error ()) (some 65000)
        = some "RFC6996 - Private Use ASN" :=
  ⟨by decide, asn_name_query_private_range (fun _ => Except.error ()) 65000
    (by decide) (by decide)⟩

/-- C10: for an ASN outside the private-use range, when the DNS lookup
succeeds with an empty answer set, the `for` loop body never runs and
`asn_name_query` falls through, returning `None` — neither a name nor the
`"(DNS Error)"` sentinel. -/
theorem asn_name_query_empty_answer (dns : String → Except Unit (List String))
    (asn : Nat) (h : ¬ (64512 ≤ asn ∧ asn ≤ 65534))
    (hdns : dns ("as" ++ toString asn ++ ".asn.cymru.com") = Except.ok []) :
    asn_name_query dns (some asn) = none := by
  simp [asn_name_query, h, hdns]

/-- Witness for C10 at ASN 15169 with a DNS oracle answering the empty
set. -/
theorem asn_name_query_empty_answer_witness :
    (¬ (64512 ≤ 15169 ∧ 15169 ≤ 65534))
    ∧ asn_name_query (fun _ => Except.ok []) (some 15169) = none :=
  ⟨by decide, asn_name_query_empty_answer (fun _ => Except.ok []) 15169
    (by decide) rfl⟩

/-- C9: `avg_as_path_length` divides by the scanned-document count with no
guard — the per-entry handler does not cover the division — so it raises
(`none`) exactly on the empty table and is well-defined on every non-empty
table. -/
theorem avg_as_path_length_needs_nonempty (table : List RouteEntry) :
    avg_as_path_length [] = none
    ∧ (table.length ≠ 0 → (avg_as_path_length table).isSome) := by
  refine ⟨rfl, fun h => ?_⟩
  simp [avg_as_path_length, h]

/-- Witness for C9 on a one-entry table. -/
theorem avg_as_path_length_needs_nonempty_witness :
    ([mkEntry ⟨0, 24, 4⟩ 4 (some 1) (some 2) "10.0.0.1" (some [1]) []].length ≠ 0)
    ∧ (avg_as_path_length
        [mkEntry ⟨0, 24, 4⟩ 4 (some 1) (some 2) "10.0.0.1" (some [1]) []]).isSome :=
  ⟨by decide,
   (avg_as_path_length_needs_nonempty
     [mkEntry ⟨0, 24, 4⟩ 4 (some 1) (some 2) "10.0.0.1" (some [1]) []]).2
     (by decide)⟩

theorem foldl_add_weight (f : RouteEntry → Nat) (l : List RouteEntry) :
    ∀ init : Nat, l.foldl (fun acc e => acc + f e) init = init + (l.map f).sum := by
  induction l with
  | nil => intro init; simp
  | cons e es ih =>
    intro init
    simp only [List.foldl_cons, List.map_cons, List.sum_cons, ih]
    omega

/-- C5: on a non-empty table, `avg_as_path_length` is exactly the sum over
all scanned entries of the number of distinct AS numbers on the entry's
path (0 when `as_path` is absent) divided by the number of entries,
rounded to three decimal places; the witness instantiates the spec's
one-entry example `as_path = [100, 100, 200]`, yielding `2.0`. -/
theorem avg_as_path_length_distinct_sum (table : List RouteEntry)
    (h : 0 < table.length) :
    avg_as_path_length table
      = some (round3 ((((table.map distinct_as_count).sum : Nat) : ℚ)
          / (table.length : ℚ))) := by
  have hw : ∀ e : RouteEntry, as_path_weight e = distinct_as_count e := by
    intro e
    cases hap : e.as_path <;>
      simp [as_path_weight, distinct_as_count, hap, List.card_toFinset]
  simp only [avg_as_path_length]
  rw [if_neg (by omega)]
  rw [foldl_add_weight as_path_weight table 0]
  rw [List.map_congr_left (fun e _ => hw e)]
  simp only [Nat.zero_add]

/-- Witness for C5: a one-entry table whose path is `[100, 100, 200]`
averages exactly 2. -/
theorem avg_as_path_length_distinct_sum_witness :
    (0 < [mkEntry ⟨0, 24, 4⟩ 4 (some 200) (some 100) "10.0.0.1"
        (some [100, 100, 200]) []].length)
    ∧ avg_as_path_length
        [mkEntry ⟨0, 24, 4⟩ 4 (some 200) (some 100) "10.0.0.1"
          (some [100, 100, 200]) []]
      = some (round3 (((([mkEntry ⟨0, 24, 4⟩ 4 (some 200) (some 100) "10.0.0.1"
          (some [100, 100, 200]) []].map distinct_as_count).sum : Nat) : ℚ)
          / ([mkEntry ⟨0, 24, 4⟩ 4 (some 200) (some 100) "10.0.0.1"
              (some [100, 100, 200]) []].length : ℚ)))
    ∧ avg_as_path_length
        [mkEntry ⟨0, 24, 4⟩ 4 (some 200) (some 100) "10.0.0.1"
          (some [100, 100, 200]) []]
      = some 2 :=
  ⟨by decide,
   avg_as_path_length_distinct_sum _ (by decide),
   by
    simp only [avg_as_path_length, mkEntry, as_path_weight, List.foldl_cons,
      List.foldl_nil, List.length_cons, List.length_nil]
    norm_num [round3, List.dedup_cons_of_mem, round]⟩

theorem hasSubList_iff (p : List Char) : ∀ s : List Char,
    hasSubList p s = true ↔ ∃ l1 l2, s = l1 ++ p ++ l2 := by
  intro s
  induction s with
  | nil =>
    simp only [hasSubList, List.isEmpty_iff]
    constructor
    · rintro rfl
      exact ⟨[], [], rfl⟩
    · rintro ⟨l1, l2, h⟩
      have h' := h.symm
      simp only [List.append_eq_nil, List.append_assoc] at h'
      exact h'.2.1
  | cons c s ih =>
    simp only [hasSubList, Bool.or_eq_true, ih, List.isPrefixOf_iff_prefix]
    constructor
    · rintro (⟨t, ht⟩ | ⟨l1, l2, rfl⟩)
      · exact ⟨[], t, by simp [ht]⟩
      · exact ⟨c :: l1, l2, by simp⟩
    · rintro ⟨l1, l2, h⟩
      cases l1 with
      | nil =>
        exact Or.inl ⟨l2, by simpa using h.symm⟩
      | cons a l1' =>
        simp only [List.cons_append, List.cons.injEq] at h
        exact Or.inr ⟨l1', l2, h.2⟩

/-- C6: for every community string `c` seen in the table, `communities_count`
reports exactly one count for `c`, namely the number of entries containing a
community value that has `c` as a substring (the final conjunct grounds the
match as genuine substring occurrence); the count dominates the exact-set-
membership count, and the witness exhibits a strict overcount where one
community string is a substring of another. -/
theorem communities_count_substring (table : List RouteEntry) (c : String)
    (h : c ∈ distinct_communities table) :
    ((c, (table.filter fun e =>
        e.communities.any fun s => hasSubList c.toList s.toList).length)
      ∈ communities_count table)
    ∧ (∀ n, (c, n) ∈ communities_count table →
        n = (table.filter fun e =>
          e.communities.any fun s => hasSubList c.toList s.toList).length)
    ∧ ((table.filter fun e => c ∈ e.communities).length
        ≤ (table.filter fun e =>
          e.communities.any fun s => hasSubList c.toList s.toList).length)
    ∧ (∀ s : String, hasSubList c.toList s.toList = true
        ↔ ∃ l1 l2, s.toList = l1 ++ c.toList ++ l2) := by
  refine ⟨?_, ?_, ?_, fun s => hasSubList_iff c.toList s.toList⟩
  · exact List.mem_map_of_mem _ h
  · intro n hn
    rcases List.mem_map.mp hn with ⟨comm, _, heq⟩
    rw [Prod.mk.injEq] at heq
    rw [← heq.2, heq.1]
  · rw [← List.countP_eq_length_filter, ← List.countP_eq_length_filter]
    refine List.countP_mono_left fun e _ hc => ?_
    simp only [decide_eq_true_eq] at hc
    simp only [List.any_eq_true]
    exact ⟨c, hc, (hasSubList_iff c.toList c.toList).mpr ⟨[], [], by simp⟩⟩

/-- Witness for C6: with entries tagged `"3701:37"` and `"3701:370"`, the
reported count for `"3701:37"` is 2 (substring match) while only one entry
contains it as an exact member. -/
theorem communities_count_substring_witness :
    ("3701:37" ∈ distinct_communities
      [mkEntry ⟨0, 24, 4⟩ 4 (some 1) (some 2) "10.0.0.1" (some [1]) ["3701:37"],
       mkEntry ⟨1, 24, 4⟩ 4 (some 1) (some 2) "10.0.0.2" (some [1]) ["3701:370"]])
    ∧ (("3701:37",
        ([mkEntry ⟨0, 24, 4⟩ 4 (some 1) (some 2) "10.0.0.1" (some [1]) ["3701:37"],
          mkEntry ⟨1, 24, 4⟩ 4 (some 1) (some 2) "10.0.0.2" (some [1]) ["3701:370"]].filter
            fun e => e.communities.any fun s =>
              hasSubList "3701:37".toList s.toList).length)
      ∈ communities_count
        [mkEntry ⟨0, 24, 4⟩ 4 (some 1) (some 2) "10.0.0.1" (some [1]) ["3701:37"],
         mkEntry ⟨1, 24, 4⟩ 4 (some 1) (some 2) "10.0.0.2" (some [1]) ["3701:370"]])
    ∧ (("3701:37", 2) ∈ communities_count
        [mkEntry ⟨0, 24, 4⟩ 4 (some 1) (some 2) "10.0.0.1" (some [1]) ["3701:37"],
         mkEntry ⟨1, 24, 4⟩ 4 (some 1) (some 2) "10.0.0.2" (some [1]) ["3701:370"]])
    ∧ ([mkEntry ⟨0, 24, 4⟩ 4 (some 1) (some 2) "10.0.0.1" (some [1]) ["3701:37"],
        mkEntry ⟨1, 24, 4⟩ 4 (some 1) (some 2) "10.0.0.2" (some [1]) ["3701:370"]].filter
          fun e => "3701:37" ∈ e.communities).length < 2 :=
  ⟨by decide,
   (communities_count_substring _ "3701:37" (by decide)).1,
   by decide,
   by decide⟩

/-- C7 fails on the code: `update_stats` re-stamps `timestamp` from the
clock (`epoch_to_date(time.time())`), so two back-to-back runs over the same
unchanged (here: empty) table publish snapshots that differ — in exactly the
`timestamp` field. -/
theorem update_stats_restamps_timestamp_counterexample :
    ((update_stats (fun _ => Except.ok []) (fun n => toString n) [] 1
        (update_stats (fun _ => Except.ok []) (fun n => toString n) [] 0
          (Stats.init (fun n => toString n) 0))).get_data
      ≠ ((update_stats (fun _ => Except.ok []) (fun n => toString n) [] 0
          (Stats.init (fun n => toString n) 0))).get_data)
    ∧ (update_stats (fun _ => Except.ok []) (fun n => toString n) [] 1
        (update_stats (fun _ => Except.ok []) (fun n => toString n) [] 0
          (Stats.init (fun n => toString n) 0))).timestamp = "1"
    ∧ (update_stats (fun _ => Except.ok []) (fun n => toString n) [] 0
        (Stats.init (fun n => toString n) 0)).timestamp = "0" := by
  refine ⟨by decide, rfl, rfl⟩

/-- C7 (amended): re-running the same refresh task over an unchanged table
(and unchanged external resolvers) reproduces every published field except
`timestamp`, which tracks the clock reading of the run; the second snapshot
is byte-identical to the first exactly when the two clock readings format
identically.  This holds for `update_stats` and for completed runs of
`update_advanced_stats`. -/
theorem update_stats_idempotent_mod_timestamp
    (dns : String → Except Unit (List String)) (fmt : Nat → String)
    (table : List RouteEntry) (t1 t2 : Nat) (s : Stats) :
    (update_stats dns fmt table t2 (update_stats dns fmt table t1 s)
      = { update_stats dns fmt table t1 s with timestamp := fmt t2 })
    ∧ (fmt t2 = fmt t1 →
        (update_stats dns fmt table t2 (update_stats dns fmt table t1 s)).get_data
          = (update_stats dns fmt table t1 s).get_data)
    ∧ (∀ s1' s2', update_advanced_stats dns fmt table t1 s = some s1' →
        update_advanced_stats dns fmt table t2 s1' = some s2' →
        s2' = { s1' with timestamp := fmt t2 }
        ∧ (fmt t2 = fmt t1 → s2'.get_data = s1'.get_data)) := by
  refine ⟨rfl, fun h => ?_, fun s1' s2' h1 h2 => ?_⟩
  · simp [update_stats, Stats.get_data, h]
  · unfold update_advanced_stats at h1 h2
    cases hq : avg_as_path_length table with
    | none => rw [hq] at h1; exact absurd h1 (by simp)
    | some q =>
      rw [hq] at h1 h2
      cases hr : cidr_breakdown table with
      | none => rw [hr] at h1; exact absurd h1 (by simp)
      | some rows =>
        rw [hr] at h1 h2
        simp only [Option.some.injEq] at h1 h2
        subst h1
        subst h2
        exact ⟨rfl, fun h => by simp [Stats.get_data, h]⟩

/-- Witness for the amended C7: with a constant clock format, a one-entry
table, and a fixed DNS oracle, both refresh tasks reproduce their snapshot
on a second run. -/
theorem update_stats_idempotent_mod_timestamp_witness :
    ((update_stats (fun _ => Except.ok []) (fun _ => "t")
        [mkEntry ⟨167772160, 24, 4⟩ 4 (some 100) (some 200) "10.0.0.1"
          (some [100, 200]) ["3701:370"]] 1
        (update_stats (fun _ => Except.ok []) (fun _ => "t")
          [mkEntry ⟨167772160, 24, 4⟩ 4 (some 100) (some 200) "10.0.0.1"
            (some [100, 200]) ["3701:370"]] 0
          (Stats.init (fun _ => "t") 0))).get_data
      = (update_stats (fun _ => Except.ok []) (fun _ => "t")
          [mkEntry ⟨167772160, 24, 4⟩ 4 (some 100) (some 200) "10.0.0.1"
            (some [100, 200]) ["3701:370"]] 0
          (Stats.init (fun _ => "t") 0)).get_data)
    ∧ ((update_advanced_stats (fun _ => Except.ok []) (fun _ => "t")
        [mkEntry ⟨167772160, 24, 4⟩ 4 (some 100) (some 200) "10.0.0.1"
          (some [100, 200]) ["3701:370"]] 1
        ((update_advanced_stats (fun _ => Except.ok []) (fun _ => "t")
          [mkEntry ⟨167772160, 24, 4⟩ 4 (some 100) (some 200) "10.0.0.1"
            (some [100, 200]) ["3701:370"]] 0
          (Stats.init (fun _ => "t") 0)).getD (Stats.init (fun _ => "t") 0))).getD
            (Stats.init (fun _ => "t") 0)
      = { (update_advanced_stats (fun _ => Except.ok []) (fun _ => "t")
            [mkEntry ⟨167772160, 24, 4⟩ 4 (some 100) (some 200) "10.0.0.1"
              (some [100, 200]) ["3701:370"]] 0
            (Stats.init (fun _ => "t") 0)).getD (Stats.init (fun _ => "t") 0)
          with timestamp := "t" }) := by
  constructor
  · exact (update_stats_idempotent_mod_timestamp (fun _ => Except.ok [])
      (fun _ => "t")
      [mkEntry ⟨167772160, 24, 4⟩ 4 (some 100) (some 200) "10.0.0.1"
        (some [100, 200]) ["3701:370"]] 0 1
      (Stats.init (fun _ => "t") 0)).2.1 rfl
  · exact ((update_stats_idempotent_mod_timestamp (fun _ => Except.ok [])
      (fun _ => "t")
      [mkEntry ⟨167772160, 24, 4⟩ 4 (some 100) (some 200) "10.0.0.1"
        (some [100, 200]) ["3701:370"]] 0 1
      (Stats.init (fun _ => "t") 0)).2.2 _ _ rfl rfl).1

/-- C8 fails on the code: `update_stats` assigns its eight attributes one at
a time, so a reader sampling after the first assignment of a second refresh
cycle (different table snapshot) observes the new cycle's `peer_counter`
together with the previous cycle's `ipv6_table_size` — a snapshot equal to
neither complete refresh of the *same* cadence. -/
theorem update_stats_not_atomic_counterexample :
    ((observe_after (fun _ => Except.ok []) (fun n => toString n)
        [mkEntry ⟨0, 24, 4⟩ 4 (some 1) (some 10) "10.0.0.1" (some [1]) [],
         mkEntry ⟨1, 64, 6⟩ 6 (some 1) (some 20) "fe80::1" (some [1]) []] 1 1
        (update_stats (fun _ => Except.ok []) (fun n => toString n)
          [mkEntry ⟨0, 24, 4⟩ 4 (some 1) (some 10) "10.0.0.1" (some [1]) []] 0
          (Stats.init (fun n => toString n) 0))).get_data
      ≠ (update_stats (fun _ => Except.ok []) (fun n => toString n)
          [mkEntry ⟨0, 24, 4⟩ 4 (some 1) (some 10) "10.0.0.1" (some [1]) []] 0
          (Stats.init (fun n => toString n) 0)).get_data)
    ∧ ((observe_after (fun _ => Except.ok []) (fun n => toString n)
        [mkEntry ⟨0, 24, 4⟩ 4 (some 1) (some 10) "10.0.0.1" (some [1]) [],
         mkEntry ⟨1, 64, 6⟩ 6 (some 1) (some 20) "fe80::1" (some [1]) []] 1 1
        (update_stats (fun _ => Except.ok []) (fun n => toString n)
          [mkEntry ⟨0, 24, 4⟩ 4 (some 1) (some 10) "10.0.0.1" (some [1]) []] 0
          (Stats.init (fun n => toString n) 0))).get_data
      ≠ (update_stats (fun _ => Except.ok []) (fun n => toString n)
          [mkEntry ⟨0, 24, 4⟩ 4 (some 1) (some 10) "10.0.0.1" (some [1]) [],
           mkEntry ⟨1, 64, 6⟩ 6 (some 1) (some 20) "fe80::1" (some [1]) []] 1
          (update_stats (fun _ => Except.ok []) (fun n => toString n)
            [mkEntry ⟨0, 24, 4⟩ 4 (some 1) (some 10) "10.0.0.1" (some [1]) []] 0
            (Stats.init (fun n => toString n) 0))).get_data)
    ∧ (observe_after (fun _ => Except.ok []) (fun n => toString n)
        [mkEntry ⟨0, 24, 4⟩ 4 (some 1) (some 10) "10.0.0.1" (some [1]) [],
         mkEntry ⟨1, 64, 6⟩ 6 (some 1) (some 20) "fe80::1" (some [1]) []] 1 1
        (update_stats (fun _ => Except.ok []) (fun n => toString n)
          [mkEntry ⟨0, 24, 4⟩ 4 (some 1) (some 10) "10.0.0.1" (some [1]) []] 0
          (Stats.init (fun n => toString n) 0))).peer_counter
      = peer_count
          [mkEntry ⟨0, 24, 4⟩ 4 (some 1) (some 10) "10.0.0.1" (some [1]) [],
           mkEntry ⟨1, 64, 6⟩ 6 (some 1) (some 20) "fe80::1" (some [1]) []]
    ∧ (observe_after (fun _ => Except.ok []) (fun n => toString n)
        [mkEntry ⟨0, 24, 4⟩ 4 (some 1) (some 10) "10.0.0.1" (some [1]) [],
         mkEntry ⟨1, 64, 6⟩ 6 (some 1) (some 20) "fe80::1" (some [1]) []] 1 1
        (update_stats (fun _ => Except.ok []) (fun n => toString n)
          [mkEntry ⟨0, 24, 4⟩ 4 (some 1) (some 10) "10.0.0.1" (some [1]) []] 0
          (Stats.init (fun n => toString n) 0))).ipv6_table_size
      = prefix_count 6
          [mkEntry ⟨0, 24, 4⟩ 4 (some 1) (some 10) "10.0.0.1" (some [1]) []] := by
  refine ⟨by decide, by decide, by decide, by decide⟩

/-- C8 (amended): running all eight assignment steps equals the full
`update_stats`, but the replacement is not atomic for concurrent readers —
whenever two consecutive refresh cycles of the same cadence see tables with
different peer counts and different IPv6 prefix counts, the state after the
first assignment of the second cycle mixes the new cycle's `peer_counter`
with the old cycle's `ipv6_table_size` and equals neither cycle's complete
snapshot. -/
theorem update_stats_reader_mix (dns : String → Except Unit (List String))
    (fmt : Nat → String) (T1 T2 : List RouteEntry) (t1 t2 : Nat) (s : Stats)
    (hpeer : peer_count T1 ≠ peer_count T2)
    (hv6 : prefix_count 6 T1 ≠ prefix_count 6 T2) :
    (run_steps (update_stats_steps dns fmt T2 t2)
        (update_stats dns fmt T1 t1 s)
      = update_stats dns fmt T2 t2 (update_stats dns fmt T1 t1 s))
    ∧ (observe_after dns fmt T2 t2 1 (update_stats dns fmt T1 t1 s)).peer_counter
        = peer_count T2
    ∧ (observe_after dns fmt T2 t2 1 (update_stats dns fmt T1 t1 s)).ipv6_table_size
        = prefix_count 6 T1
    ∧ (observe_after dns fmt T2 t2 1 (update_stats dns fmt T1 t1 s)
        ≠ update_stats dns fmt T1 t1 s)
    ∧ (observe_after dns fmt T2 t2 1 (update_stats dns fmt T1 t1 s)
        ≠ update_stats dns fmt T2 t2 (update_stats dns fmt T1 t1 s)) := by
  refine ⟨rfl, rfl, rfl, fun heq => ?_, fun heq => ?_⟩
  · exact hpeer (congrArg Stats.peer_counter heq).symm
  · exact hv6 (congrArg Stats.ipv6_table_size heq)

/-- Witness for the amended C8 with a one-entry first cycle and a two-entry
second cycle. -/
theorem update_stats_reader_mix_witness :
    (peer_count [mkEntry ⟨0, 24, 4⟩ 4 (some 1) (some 10) "10.0.0.1" (some [1]) []]
      ≠ peer_count
        [mkEntry ⟨0, 24, 4⟩ 4 (some 1) (some 10) "10.0.0.1" (some [1]) [],
         mkEntry ⟨1, 64, 6⟩ 6 (some 1) (some 20) "fe80::1" (some [1]) []])
    ∧ (prefix_count 6 [mkEntry ⟨0, 24, 4⟩ 4 (some 1) (some 10) "10.0.0.1" (some [1]) []]
      ≠ prefix_count 6
        [mkEntry ⟨0, 24, 4⟩ 4 (some 1) (some 10) "10.0.0.1" (some [1]) [],
         mkEntry ⟨1, 64, 6⟩ 6 (some 1) (some 20) "fe80::1" (some [1]) []])
    ∧ (observe_after (fun _ => Except.ok []) (fun n => toString n)
        [mkEntry ⟨0, 24, 4⟩ 4 (some 1) (some 10) "10.0.0.1" (some [1]) [],
         mkEntry ⟨1, 64, 6⟩ 6 (some 1) (some 20) "fe80::1" (some [1]) []] 1 1
        (update_stats (fun _ => Except.ok []) (fun n => toString n)
          [mkEntry ⟨0, 24, 4⟩ 4 (some 1) (some 10) "10.0.0.1" (some [1]) []] 0
          (Stats.init (fun n => toString n) 0))
      ≠ update_stats (fun _ => Except.ok []) (fun n => toString n)
          [mkEntry ⟨0, 24, 4⟩ 4 (some 1) (some 10) "10.0.0.1" (some [1]) []] 0
          (Stats.init (fun n => toString n) 0)) :=
  ⟨by decide, by decide,
   (update_stats_reader_mix (fun _ => Except.ok []) (fun n => toString n)
      [mkEntry ⟨0, 24, 4⟩ 4 (some 1) (some 10) "10.0.0.1" (some [1]) []]
      [mkEntry ⟨0, 24, 4⟩ 4 (some 1) (some 10) "10.0.0.1" (some [1]) [],
       mkEntry ⟨1, 64, 6⟩ 6 (some 1) (some 20) "fe80::1" (some [1]) []] 0 1
      (Stats.init (fun n => toString n) 0) (by decide) (by decide)).2.2.2.1⟩
